import Mathlib

/-!
Shallow embedding of `src/lib/aggregator.js` (mocha timing aggregator).

The source defines two constructors:

* `Data` — the timing record of one entity: `start`, `end`, `hooks` (keyed by hook
  uid), `hookOrder` (uids in start order), `terminalState`.
* `Aggregator` — subscribes to runner events and maintains `_suites` and
  `_tests` (plain js objects keyed by uid) plus `_start`/`_end` run timestamps.

Modelling choices:

* Timestamps (`new Date()` values) are `Int` (milliseconds since epoch);
  subtraction of two dates in js yields the millisecond difference.
* A js plain object used as a dictionary is an association list
  `List (String × α)` with overwrite-on-assign semantics (`jmapSet`) and
  `undefined`-on-miss (`jmapGet` returning `Option`).
* js values whose runtime type matters (arguments checked with
  `instanceof Date` or compared against string constants with `===`) are the
  inductive `JsValue`.
* A method that can throw is modelled with `JsResult σ`: `ok s` for normal
  return with post-state `s`, `exn msg s` for a thrown exception with the
  state `s` as it was at the throw point (js exceptions do not roll back
  mutations; in this source every throw happens before any mutation of the
  receiver, which the branches below reflect).
* Each event handler reads the clock (`new Date()`); the read value is an
  explicit `now : Int` parameter.
-/

/-- js exception-aware result: `ok` is a normal return, `exn` a thrown
exception; both carry the (possibly mutated) state. -/
inductive JsResult (σ : Type) where
  | ok (s : σ)
  | exn (msg : String) (s : σ)
  deriving DecidableEq, Repr

/-- The state after the call, whether it returned or threw. -/
def JsResult.state {σ : Type} : JsResult σ → σ
  | JsResult.ok s => s
  | JsResult.exn _ s => s

/-- Returns `true` iff the call returned normally. -/
def JsResult.isOk {σ : Type} : JsResult σ → Bool
  | JsResult.ok _ => true
  | JsResult.exn _ _ => false

/-- js runtime values, as far as this source inspects them: `setEndTime`
checks `instanceof Date`, `setTerminalState` compares with `===` against
string constants. -/
inductive JsValue where
  | date (t : Int)
  | strV (s : String)
  | numV (n : Int)
  | boolV (b : Bool)
  | undef
  deriving DecidableEq, Repr

/-- A js number that may be `NaN` (e.g. `date - undefined`). -/
inductive JsNum where
  | nan
  | int (n : Int)
  deriving DecidableEq, Repr

/-- Property read on a js object used as a dictionary: the first binding for
the key, `undefined` (= `none`) on a miss. -/
def jmapGet {α : Type} (m : List (String × α)) (k : String) : Option α :=
  match m with
  | [] => none
  | (k2, v) :: rest => if k2 = k then some v else jmapGet rest k

/-- Property assignment on a js object used as a dictionary: overwrite the
binding for the key if present, insert it otherwise. -/
def jmapSet {α : Type} (m : List (String × α)) (k : String) (v : α) :
    List (String × α) :=
  match m with
  | [] => [(k, v)]
  | (k2, v2) :: rest =>
      if k2 = k then (k, v) :: rest else (k2, v2) :: jmapSet rest k v

/-- Source constant ERROR, the string "error". -/
def ERROR : String := "error"

/-- Source constant SKIP, the string "skip". -/
def SKIP : String := "skip"

/-- Source constant SUCCESS, the string "success". -/
def SUCCESS : String := "success"

/-- One hook sub-record: `addHookStart` stores `{start: now}` (no `end`
property, hence `none`), `addHookEnd` later assigns `.end`. -/
structure Hook where
  start : Int
  endTime : Option Int
  deriving DecidableEq, Repr

/-- Fields of the `Data` constructor (`end` is `endTime` here, `end` being a
Lean keyword): `start` from the constructor argument, everything else at its
initial value. -/
structure Data where
  start : Int
  endTime : Option Int
  hooks : List (String × Hook)
  hookOrder : List String
  terminalState : Option String
  deriving DecidableEq, Repr

/-- Evaluation of `new Data(start)`. -/
def Data.init (start : Int) : Data :=
  { start := start, endTime := none, hooks := [], hookOrder := [],
    terminalState := none }

/-- Source `Data.prototype.getDuration`: `null` while `end` is unset, otherwise
`end - start`. -/
def Data.getDuration (d : Data) : Option Int :=
  match d.endTime with
  | none => none
  | some e => some (e - d.start)

/-- Source `Data.prototype.getIsError`: `this.terminalState === ERROR`. -/
def Data.getIsError (d : Data) : Bool :=
  d.terminalState = some ERROR

/-- Source `Data.prototype.getIsSkip`: `this.terminalState === SKIP`. -/
def Data.getIsSkip (d : Data) : Bool :=
  d.terminalState = some SKIP

/-- Source `Data.prototype.getIsSuccess`: `this.terminalState === SUCCESS`. -/
def Data.getIsSuccess (d : Data) : Bool :=
  d.terminalState = some SUCCESS

/-- Source `Data.prototype.setTerminalState`: a `switch` whose `ERROR`/`SKIP`/
`SUCCESS` cases assign `this.terminalState`, and whose `default` case throws
before any assignment (so the record in the `exn` branch is unchanged). -/
def Data.setTerminalState (d : Data) (state : JsValue) : JsResult Data :=
  match state with
  | JsValue.strV s =>
      if s = ERROR ∨ s = SKIP ∨ s = SUCCESS then
        JsResult.ok { d with terminalState := some s }
      else
        JsResult.exn "state must be a valid terminalState" d
  | _ => JsResult.exn "state must be a valid terminalState" d

/-- Source `Data.prototype.addHookStart`: assign a fresh `{start: now}` at
`hooks[hookUID]` (overwriting any previous binding) and push `hookUID` onto
`hookOrder` (no deduplication). -/
def Data.addHookStart (d : Data) (hookUID : String) (now : Int) : Data :=
  { d with
      hooks := jmapSet d.hooks hookUID { start := now, endTime := none },
      hookOrder := d.hookOrder ++ [hookUID] }

/-- Source `Data.prototype.addHookEnd`: `this.hooks[hookUID].end = new Date()`; if
`hookUID` was never started the property read yields `undefined` and the
assignment throws a `TypeError`. -/
def Data.addHookEnd (d : Data) (hookUID : String) (now : Int) : JsResult Data :=
  match jmapGet d.hooks hookUID with
  | none =>
      JsResult.exn "TypeError: cannot set property end of undefined" d
  | some h =>
      JsResult.ok
        { d with hooks := jmapSet d.hooks hookUID { h with endTime := some now } }

/-- Source `Data.prototype.setEndTime`: throws unless the argument is an
`instanceof Date`; otherwise assigns `this.end`. -/
def Data.setEndTime (d : Data) (endArg : JsValue) : JsResult Data :=
  match endArg with
  | JsValue.date t => JsResult.ok { d with endTime := some t }
  | _ => JsResult.exn "end must be an instanceof Date" d

/-- Fields of the `Aggregator` constructor: `_suites` and `_tests` start as
empty objects; `_start`/`_end` are not initialised (reading them before the
corresponding event yields `undefined`, hence `Option`). -/
structure Aggregator where
  suitesMap : List (String × Data)
  testsMap : List (String × Data)
  runStart : Option Int
  runEnd : Option Int
  deriving DecidableEq, Repr

/-- Evaluation of `new Aggregator(runner)` before any event fires. -/
def Aggregator.init : Aggregator :=
  { suitesMap := [], testsMap := [], runStart := none, runEnd := none }

/-- Handler for `start`: `self._start = new Date()`. -/
def Aggregator.onStart (a : Aggregator) (now : Int) : Aggregator :=
  { a with runStart := some now }

/-- Handler for `end`: `self._end = new Date()`. -/
def Aggregator.onEnd (a : Aggregator) (now : Int) : Aggregator :=
  { a with runEnd := some now }

/-- Handler for `suite`: `self._suites[suite.uid] = new Data(new Date())`. -/
def Aggregator.onSuite (a : Aggregator) (uid : String) (now : Int) : Aggregator :=
  { a with suitesMap := jmapSet a.suitesMap uid (Data.init now) }

/-- Handler for `suite end`: `self._suites[suite.uid].setEndTime(new Date())`;
a `TypeError` if the uid is unknown (method call on `undefined`). -/
def Aggregator.onSuiteEnd (a : Aggregator) (uid : String) (now : Int) :
    JsResult Aggregator :=
  match jmapGet a.suitesMap uid with
  | none => JsResult.exn "TypeError: cannot read setEndTime of undefined" a
  | some d =>
      match d.setEndTime (JsValue.date now) with
      | JsResult.ok d2 =>
          JsResult.ok { a with suitesMap := jmapSet a.suitesMap uid d2 }
      | JsResult.exn m d2 =>
          JsResult.exn m { a with suitesMap := jmapSet a.suitesMap uid d2 }

/-- Handler for `test`: `self._tests[test.uid] = new Data(new Date())`. -/
def Aggregator.onTest (a : Aggregator) (uid : String) (now : Int) : Aggregator :=
  { a with testsMap := jmapSet a.testsMap uid (Data.init now) }

/-- Handler for `test end`: `self._tests[test.uid].setEndTime(new Date())`;
a `TypeError` if the uid is unknown. -/
def Aggregator.onTestEnd (a : Aggregator) (uid : String) (now : Int) :
    JsResult Aggregator :=
  match jmapGet a.testsMap uid with
  | none => JsResult.exn "TypeError: cannot read setEndTime of undefined" a
  | some d =>
      match d.setEndTime (JsValue.date now) with
      | JsResult.ok d2 =>
          JsResult.ok { a with testsMap := jmapSet a.testsMap uid d2 }
      | JsResult.exn m d2 =>
          JsResult.exn m { a with testsMap := jmapSet a.testsMap uid d2 }

/-- A hook event payload, as far as the handlers inspect it: `hook.uid` and
the optional `hook.ctx.currentTest.uid` chain (collapsed to one `Option`;
`none` covers a missing `ctx`, `currentTest` or `uid`). -/
structure HookPayload where
  uid : String
  ctxCurrentTestUid : Option String
  deriving DecidableEq, Repr

/-- Handler for `hook`: no-op unless `hook.ctx.currentTest.uid` is present
and truthy (the empty string is falsy in js); then
`self._tests[thatUid].addHookStart(hook.uid)`, a `TypeError` if the owning
test is unknown. -/
def Aggregator.onHook (a : Aggregator) (h : HookPayload) (now : Int) :
    JsResult Aggregator :=
  match h.ctxCurrentTestUid with
  | none => JsResult.ok a
  | some tuid =>
      if tuid = "" then JsResult.ok a
      else
        match jmapGet a.testsMap tuid with
        | none =>
            JsResult.exn "TypeError: cannot read addHookStart of undefined" a
        | some d =>
            JsResult.ok
              { a with testsMap := jmapSet a.testsMap tuid (d.addHookStart h.uid now) }

/-- Handler for `hook end`: symmetric to `hook`, calling `addHookEnd`. -/
def Aggregator.onHookEnd (a : Aggregator) (h : HookPayload) (now : Int) :
    JsResult Aggregator :=
  match h.ctxCurrentTestUid with
  | none => JsResult.ok a
  | some tuid =>
      if tuid = "" then JsResult.ok a
      else
        match jmapGet a.testsMap tuid with
        | none =>
            JsResult.exn "TypeError: cannot read addHookEnd of undefined" a
        | some d =>
            match d.addHookEnd h.uid now with
            | JsResult.ok d2 =>
                JsResult.ok { a with testsMap := jmapSet a.testsMap tuid d2 }
            | JsResult.exn m d2 =>
                JsResult.exn m { a with testsMap := jmapSet a.testsMap tuid d2 }

/-- Handler for `pass`: `self._tests[test.uid].setTerminalState(SUCCESS)`;
a `TypeError` if the uid is unknown (no existence guard). -/
def Aggregator.onPass (a : Aggregator) (uid : String) : JsResult Aggregator :=
  match jmapGet a.testsMap uid with
  | none => JsResult.exn "TypeError: cannot read setTerminalState of undefined" a
  | some d =>
      match d.setTerminalState (JsValue.strV SUCCESS) with
      | JsResult.ok d2 =>
          JsResult.ok { a with testsMap := jmapSet a.testsMap uid d2 }
      | JsResult.exn m d2 =>
          JsResult.exn m { a with testsMap := jmapSet a.testsMap uid d2 }

/-- Handler for `fail`: guarded by `if (self._tests[test.uid])` — a fail for
an unknown uid is silently ignored; otherwise `setTerminalState(ERROR)`. -/
def Aggregator.onFail (a : Aggregator) (uid : String) : JsResult Aggregator :=
  match jmapGet a.testsMap uid with
  | none => JsResult.ok a
  | some d =>
      match d.setTerminalState (JsValue.strV ERROR) with
      | JsResult.ok d2 =>
          JsResult.ok { a with testsMap := jmapSet a.testsMap uid d2 }
      | JsResult.exn m d2 =>
          JsResult.exn m { a with testsMap := jmapSet a.testsMap uid d2 }

/-- Handler for `pending`: `self._tests[test.uid].setTerminalState(SKIP)`;
a `TypeError` if the uid is unknown (no existence guard). -/
def Aggregator.onPending (a : Aggregator) (uid : String) : JsResult Aggregator :=
  match jmapGet a.testsMap uid with
  | none => JsResult.exn "TypeError: cannot read setTerminalState of undefined" a
  | some d =>
      match d.setTerminalState (JsValue.strV SKIP) with
      | JsResult.ok d2 =>
          JsResult.ok { a with testsMap := jmapSet a.testsMap uid d2 }
      | JsResult.exn m d2 =>
          JsResult.exn m { a with testsMap := jmapSet a.testsMap uid d2 }

/-- Source `Aggregator.prototype.getTestData`: throws on an unknown uid, otherwise
returns the stored record. -/
def Aggregator.getTestData (a : Aggregator) (uid : String) : Except String Data :=
  match jmapGet a.testsMap uid with
  | none => Except.error "uid is invalid for tests"
  | some d => Except.ok d

/-- Source `Aggregator.prototype.getSuiteData`: throws on an unknown uid, otherwise
returns the stored record. -/
def Aggregator.getSuiteData (a : Aggregator) (uid : String) : Except String Data :=
  match jmapGet a.suitesMap uid with
  | none => Except.error "uid is invalid for suites"
  | some d => Except.ok d

/-- Source `Aggregator.prototype.getNumberOfErrors`: the source iterates
`this._tests` with `for (const data of this._tests)`. `_tests` is a plain
object, which does not implement the js iterable protocol, so the loop header
throws a `TypeError` before the body can run: the function never returns a
count, on any aggregator state. -/
def Aggregator.getNumberOfErrors (a : Aggregator) : Except String Nat :=
  match a.testsMap with
  | _ => Except.error "TypeError: this._tests is not iterable"

/-- Source `Aggregator.prototype.getNumberOfSkips`: same `for...of` over a plain
object; throws a `TypeError` on every state. -/
def Aggregator.getNumberOfSkips (a : Aggregator) : Except String Nat :=
  match a.testsMap with
  | _ => Except.error "TypeError: this._tests is not iterable"

/-- Source `Aggregator.prototype.getNumberOfSuccesses`: same `for...of` over a plain
object; throws a `TypeError` on every state. -/
def Aggregator.getNumberOfSuccesses (a : Aggregator) : Except String Nat :=
  match a.testsMap with
  | _ => Except.error "TypeError: this._tests is not iterable"

/-- The counting loop body the source intends (`total += data.getIsError()`
summed over the records), used to state what the broken `getNumberOf...`
functions were meant to compute. -/
def countTests (a : Aggregator) (p : Data → Bool) : Nat :=
  (a.testsMap.filter (fun kv => p kv.2)).length

/-- Source `Aggregator.prototype.getTotalDuration`: `null` until `_end` is set
(`== null` also matches `undefined`), otherwise `this._end - this._start`
(which is `NaN` when `_start` was never recorded). -/
def Aggregator.getTotalDuration (a : Aggregator) : Option JsNum :=
  match a.runEnd with
  | none => none
  | some e =>
      match a.runStart with
      | none => some JsNum.nan
      | some s => some (JsNum.int (e - s))

/-- Since `getTestData` returns the very `Data` object stored in `_tests` (js
reference semantics), so a caller invoking `setTerminalState` on the returned
record mutates the record inside the aggregator. This is the observable
effect on the aggregator of `agg.getTestData(uid).setTerminalState(v)`. -/
def Aggregator.getTestDataThenSetTerminalState (a : Aggregator) (uid : String)
    (v : JsValue) : JsResult Aggregator :=
  match a.getTestData uid with
  | Except.error m => JsResult.exn m a
  | Except.ok d =>
      match d.setTerminalState v with
      | JsResult.ok d2 =>
          JsResult.ok { a with testsMap := jmapSet a.testsMap uid d2 }
      | JsResult.exn m d2 =>
          JsResult.exn m { a with testsMap := jmapSet a.testsMap uid d2 }

/-- Likewise getSuiteData returns the very Data object stored in the suites
map (suite records are built by the same Data constructor, whose mutators are
public), so a caller invoking setTerminalState through that reference updates
the record inside the aggregator. This is the observable effect on the
aggregator of `agg.getSuiteData(uid).setTerminalState(v)`. -/
def Aggregator.getSuiteDataThenSetTerminalState (a : Aggregator) (uid : String)
    (v : JsValue) : JsResult Aggregator :=
  match a.getSuiteData uid with
  | Except.error m => JsResult.exn m a
  | Except.ok d =>
      match d.setTerminalState v with
      | JsResult.ok d2 =>
          JsResult.ok { a with suitesMap := jmapSet a.suitesMap uid d2 }
      | JsResult.exn m d2 =>
          JsResult.exn m { a with suitesMap := jmapSet a.suitesMap uid d2 }

/-- The eleven runner events, each carrying the payload fields the handlers
read and the clock value the handler observes. -/
inductive Event where
  | start (now : Int)
  | endEv (now : Int)
  | suite (uid : String) (now : Int)
  | suiteEnd (uid : String) (now : Int)
  | test (uid : String) (now : Int)
  | testEnd (uid : String) (now : Int)
  | hook (p : HookPayload) (now : Int)
  | hookEnd (p : HookPayload) (now : Int)
  | pass (uid : String)
  | fail (uid : String)
  | pending (uid : String)
  deriving DecidableEq, Repr

/-- Returns `true` only for the run-end event. -/
def Event.isEndEv : Event → Bool
  | Event.endEv _ => true
  | _ => false

/-- Dispatch one event to its handler. -/
def step (a : Aggregator) (e : Event) : JsResult Aggregator :=
  match e with
  | Event.start now => JsResult.ok (a.onStart now)
  | Event.endEv now => JsResult.ok (a.onEnd now)
  | Event.suite uid now => JsResult.ok (a.onSuite uid now)
  | Event.suiteEnd uid now => a.onSuiteEnd uid now
  | Event.test uid now => JsResult.ok (a.onTest uid now)
  | Event.testEnd uid now => a.onTestEnd uid now
  | Event.hook p now => a.onHook p now
  | Event.hookEnd p now => a.onHookEnd p now
  | Event.pass uid => a.onPass uid
  | Event.fail uid => a.onFail uid
  | Event.pending uid => a.onPending uid

/-- The aggregator state after one event, whether the handler returned or
threw (a js exception does not roll back mutations already made). -/
def stepState (a : Aggregator) (e : Event) : Aggregator :=
  (step a e).state

/-- The aggregator state after a sequence of events. -/
def processEvents (a : Aggregator) (es : List Event) : Aggregator :=
  es.foldl stepState a

/-- Helper predicate: is this value a js Date instance? (decidable stand-in
for an instanceof check in hypotheses). -/
def JsValue.isDate : JsValue → Bool
  | JsValue.date _ => true
  | _ => false

/-- A small concrete aggregator (one suite, one test) used to exercise the
lookup paths at concrete inputs. -/
def sampleAgg : Aggregator :=
  { suitesMap := [("s1", Data.init 0)], testsMap := [("t1", Data.init 1)],
    runStart := none, runEnd := none }

/-- The aggregator after test-start and pass events for the uid t1. -/
def passedAgg : Aggregator :=
  processEvents Aggregator.init [Event.test "t1" 0, Event.pass "t1"]

/-- The aggregator after an external caller takes the record returned by
getTestData for t1 out of `passedAgg` and calls setTerminalState with the
string "error" on it. -/
def passedAggAfterExternalMutation : Aggregator :=
  (passedAgg.getTestDataThenSetTerminalState "t1" (JsValue.strV "error")).state

/-- The record stored for t1 inside `passedAgg`. -/
def passedRecord : Data := { Data.init 0 with terminalState := some "success" }

/-- The aggregator after a suite-start event for the uid s1. -/
def suiteAgg : Aggregator :=
  processEvents Aggregator.init [Event.suite "s1" 0]

/-- The aggregator after an external caller takes the record returned by
getSuiteData for s1 out of `suiteAgg` and calls setTerminalState with the
string "error" on it. -/
def suiteAggAfterExternalMutation : Aggregator :=
  (suiteAgg.getSuiteDataThenSetTerminalState "s1" (JsValue.strV "error")).state

/-! ## Helper lemmas -/

deriving instance DecidableEq for Except

theorem jmapGet_jmapSet_self {α : Type} (m : List (String × α)) (k : String)
    (v : α) : jmapGet (jmapSet m k v) k = some v := by
  induction m with
  | nil => simp [jmapSet, jmapGet]
  | cons hd tl ih =>
      obtain ⟨k2, v2⟩ := hd
      by_cases h : k2 = k
      · simp [jmapSet, jmapGet, h]
      · simp [jmapSet, jmapGet, h, ih]

/-! ## Claims -/

/-- C1: the spec says getNumberOfErrors, getNumberOfSkips and
getNumberOfSuccesses count the test records in the matching terminal state
and return 0 on an empty tests mapping. The code iterates the plain object
`this._tests` with a js for...of loop, which throws a TypeError on every
state, so even on the freshly constructed aggregator (empty tests mapping)
each function throws instead of returning the count 0 that the filter-based
count gives. -/
theorem C1_getNumberOf_throws :
    Aggregator.init.getNumberOfErrors =
      Except.error "TypeError: this._tests is not iterable" ∧
    Aggregator.init.getNumberOfSkips =
      Except.error "TypeError: this._tests is not iterable" ∧
    Aggregator.init.getNumberOfSuccesses =
      Except.error "TypeError: this._tests is not iterable" ∧
    countTests Aggregator.init Data.getIsError = 0 ∧
    countTests Aggregator.init Data.getIsSkip = 0 ∧
    countTests Aggregator.init Data.getIsSuccess = 0 := by
  refine ⟨rfl, rfl, rfl, rfl, rfl, rfl⟩

/-- C2: a fail event for a test uid absent from the tests mapping is silently
ignored (the handler returns with the aggregator unchanged and no record
created), whereas pass and pending events for an absent uid throw a
missing-key TypeError, and getTestData on that uid still fails with the
lookup error. -/
theorem C2_orphan_fail_asymmetry (a : Aggregator) (uid : String)
    (h : jmapGet a.testsMap uid = none) :
    a.onFail uid = JsResult.ok a ∧
    a.onPass uid =
      JsResult.exn "TypeError: cannot read setTerminalState of undefined" a ∧
    a.onPending uid =
      JsResult.exn "TypeError: cannot read setTerminalState of undefined" a ∧
    a.getTestData uid = Except.error "uid is invalid for tests" := by
  refine ⟨?_, ?_, ?_, ?_⟩ <;>
    simp [Aggregator.onFail, Aggregator.onPass, Aggregator.onPending,
      Aggregator.getTestData, h]

/-- Witness for C2 at the fresh aggregator and the uid "unknown". -/
theorem C2_orphan_fail_asymmetry_witness :
    jmapGet Aggregator.init.testsMap "unknown" = none ∧
    (Aggregator.init.onFail "unknown" = JsResult.ok Aggregator.init ∧
     Aggregator.init.onPass "unknown" =
       JsResult.exn "TypeError: cannot read setTerminalState of undefined"
         Aggregator.init ∧
     Aggregator.init.onPending "unknown" =
       JsResult.exn "TypeError: cannot read setTerminalState of undefined"
         Aggregator.init ∧
     Aggregator.init.getTestData "unknown" =
       Except.error "uid is invalid for tests") :=
  ⟨rfl, C2_orphan_fail_asymmetry Aggregator.init "unknown" rfl⟩

/-- C3: a freshly created test record answers false to all three of
getIsError, getIsSkip and getIsSuccess; the other mutators (addHookStart,
addHookEnd, setEndTime) leave terminalState untouched, so the predicates stay
all-false until an outcome event; and once setTerminalState succeeds (the
only way pass, fail or pending touch the record), exactly one of the three
predicates is true. -/
theorem C3_terminal_predicate_partition (now t : Int) (hookUID : String)
    (e v : JsValue) (d d2 : Data)
    (h : d.setTerminalState v = JsResult.ok d2) :
    ((Data.init now).getIsError = false ∧ (Data.init now).getIsSkip = false ∧
      (Data.init now).getIsSuccess = false) ∧
    (d.addHookStart hookUID t).terminalState = d.terminalState ∧
    ((d.addHookEnd hookUID t).state).terminalState = d.terminalState ∧
    ((d.setEndTime e).state).terminalState = d.terminalState ∧
    ((d2.getIsError = true ∧ d2.getIsSkip = false ∧ d2.getIsSuccess = false) ∨
     (d2.getIsError = false ∧ d2.getIsSkip = true ∧ d2.getIsSuccess = false) ∨
     (d2.getIsError = false ∧ d2.getIsSkip = false ∧ d2.getIsSuccess = true)) := by
  refine ⟨by simp [Data.init, Data.getIsError, Data.getIsSkip, Data.getIsSuccess], ?_, ?_, ?_, ?_⟩
  · simp [Data.addHookStart]
  · unfold Data.addHookEnd
    cases jmapGet d.hooks hookUID <;> simp [JsResult.state]
  · unfold Data.setEndTime
    cases e <;> simp [JsResult.state]
  · unfold Data.setTerminalState at h
    split at h
    · split at h
      · rename_i s hc
        injection h with h2
        subst h2
        rcases hc with h1 | h1 | h1 <;> subst h1 <;>
          simp [Data.getIsError, Data.getIsSkip, Data.getIsSuccess,
            ERROR, SKIP, SUCCESS]
      · exact absurd h (by simp)
    · exact absurd h (by simp)

/-- Witness for C3 at a concrete record and the outcome value "skip". -/
theorem C3_terminal_predicate_partition_witness :
    (Data.init 7).setTerminalState (JsValue.strV "skip") =
      JsResult.ok { Data.init 7 with terminalState := some "skip" } ∧
    (((Data.init 0).getIsError = false ∧ (Data.init 0).getIsSkip = false ∧
       (Data.init 0).getIsSuccess = false) ∧
     ((Data.init 7).addHookStart "h1" 3).terminalState = (Data.init 7).terminalState ∧
     (((Data.init 7).addHookEnd "h1" 3).state).terminalState = (Data.init 7).terminalState ∧
     (((Data.init 7).setEndTime JsValue.undef).state).terminalState = (Data.init 7).terminalState ∧
     (let d2 : Data := { Data.init 7 with terminalState := some "skip" }
      (d2.getIsError = true ∧ d2.getIsSkip = false ∧ d2.getIsSuccess = false) ∨
      (d2.getIsError = false ∧ d2.getIsSkip = true ∧ d2.getIsSuccess = false) ∨
      (d2.getIsError = false ∧ d2.getIsSkip = false ∧ d2.getIsSuccess = true))) :=
  ⟨by decide,
   C3_terminal_predicate_partition 0 3 "h1" JsValue.undef (JsValue.strV "skip")
     (Data.init 7) _ (by decide)⟩

/-- C5: setTerminalState called with any value other than the strings error,
skip or success throws the invalid-value error with the record unchanged from
before the call; called with any of the three recognized strings it succeeds
and stores that string. -/
theorem C5_setTerminalState_validation (d : Data) (v : JsValue) (s : String)
    (hv : ¬(v = JsValue.strV ERROR ∨ v = JsValue.strV SKIP ∨
            v = JsValue.strV SUCCESS))
    (hs : s = ERROR ∨ s = SKIP ∨ s = SUCCESS) :
    d.setTerminalState v =
      JsResult.exn "state must be a valid terminalState" d ∧
    d.setTerminalState (JsValue.strV s) =
      JsResult.ok { d with terminalState := some s } := by
  constructor
  · unfold Data.setTerminalState
    cases v <;> simp_all
  · unfold Data.setTerminalState
    rcases hs with h1 | h1 | h1 <;> simp [h1]

/-- Witness for C5 at a concrete record, the invalid value "bogus" and the
valid value "success". -/
theorem C5_setTerminalState_validation_witness :
    (¬(JsValue.strV "bogus" = JsValue.strV ERROR ∨
       JsValue.strV "bogus" = JsValue.strV SKIP ∨
       JsValue.strV "bogus" = JsValue.strV SUCCESS) ∧
     ("success" = ERROR ∨ "success" = SKIP ∨ "success" = SUCCESS)) ∧
    ((Data.init 4).setTerminalState (JsValue.strV "bogus") =
       JsResult.exn "state must be a valid terminalState" (Data.init 4) ∧
     (Data.init 4).setTerminalState (JsValue.strV "success") =
       JsResult.ok { Data.init 4 with terminalState := some "success" }) :=
  ⟨⟨by decide, by decide⟩,
   C5_setTerminalState_validation (Data.init 4) (JsValue.strV "bogus")
     "success" (by decide) (by decide)⟩

/-- C10: setTerminalState is not write-once — on a record whose
terminalState is already set, a later call with any of the three valid
strings succeeds and overwrites it; concretely, processing test-start, pass,
then fail for the same uid leaves the record in the error state (the fail
outcome silently replaces the pass outcome). -/
theorem C10_terminal_state_overwrite (d : Data) (s0 s : String)
    (h0 : d.terminalState = some s0)
    (hs : s = ERROR ∨ s = SKIP ∨ s = SUCCESS) :
    d.setTerminalState (JsValue.strV s) =
      JsResult.ok { d with terminalState := some s } ∧
    Except.map Data.getIsError
      ((processEvents Aggregator.init
          [Event.test "t1" 0, Event.pass "t1", Event.fail "t1"]).getTestData
        "t1") = Except.ok true ∧
    Except.map Data.getIsSuccess
      ((processEvents Aggregator.init
          [Event.test "t1" 0, Event.pass "t1", Event.fail "t1"]).getTestData
        "t1") = Except.ok false := by
  refine ⟨?_, by decide, by decide⟩
  unfold Data.setTerminalState
  rcases hs with h1 | h1 | h1 <;> simp [h1]

/-- Witness for C10 at a record already in the success state, overwritten
with error. -/
theorem C10_terminal_state_overwrite_witness :
    (({ Data.init 2 with terminalState := some "success" } : Data).terminalState =
       some "success" ∧
     ("error" = ERROR ∨ "error" = SKIP ∨ "error" = SUCCESS)) ∧
    (({ Data.init 2 with terminalState := some "success" } : Data).setTerminalState
        (JsValue.strV "error") =
       JsResult.ok { Data.init 2 with terminalState := some "error" } ∧
     Except.map Data.getIsError
       ((processEvents Aggregator.init
           [Event.test "t1" 0, Event.pass "t1", Event.fail "t1"]).getTestData
         "t1") = Except.ok true ∧
     Except.map Data.getIsSuccess
       ((processEvents Aggregator.init
           [Event.test "t1" 0, Event.pass "t1", Event.fail "t1"]).getTestData
         "t1") = Except.ok false) :=
  ⟨⟨by decide, by decide⟩,
   C10_terminal_state_overwrite { Data.init 2 with terminalState := some "success" }
     "success" "error" (by decide) (by decide)⟩

/-- C6: getTestData and getSuiteData return the stored record for any uid
present in the respective mapping, and fail with the explicit lookup error
(rather than returning a silent absent value) for any uid absent from it. -/
theorem C6_lookup_explicit_failure (a : Aggregator) (uid suid uidA suidA : String)
    (d d2 : Data)
    (ht : jmapGet a.testsMap uid = some d)
    (hs : jmapGet a.suitesMap suid = some d2)
    (ha : jmapGet a.testsMap uidA = none)
    (hb : jmapGet a.suitesMap suidA = none) :
    a.getTestData uid = Except.ok d ∧
    a.getSuiteData suid = Except.ok d2 ∧
    a.getTestData uidA = Except.error "uid is invalid for tests" ∧
    a.getSuiteData suidA = Except.error "uid is invalid for suites" := by
  refine ⟨?_, ?_, ?_, ?_⟩ <;>
    simp [Aggregator.getTestData, Aggregator.getSuiteData, ht, hs, ha, hb]

/-- Witness for C6 at an aggregator holding one suite and one test. -/
theorem C6_lookup_explicit_failure_witness :
    (jmapGet sampleAgg.testsMap "t1" = some (Data.init 1) ∧
     jmapGet sampleAgg.suitesMap "s1" = some (Data.init 0) ∧
     jmapGet sampleAgg.testsMap "nope" = none ∧
     jmapGet sampleAgg.suitesMap "nope" = none) ∧
    (sampleAgg.getTestData "t1" = Except.ok (Data.init 1) ∧
     sampleAgg.getSuiteData "s1" = Except.ok (Data.init 0) ∧
     sampleAgg.getTestData "nope" = Except.error "uid is invalid for tests" ∧
     sampleAgg.getSuiteData "nope" = Except.error "uid is invalid for suites") :=
  ⟨⟨by decide, by decide, by decide, by decide⟩,
   C6_lookup_explicit_failure sampleAgg "t1" "s1" "nope" "nope" (Data.init 1)
     (Data.init 0) (by decide) (by decide) (by decide) (by decide)⟩

/-- C7: addHookStart stores a fresh sub-record with the given start and no
end under the hook uid (overwriting any previous one, as the lookup after the
call always yields the fresh record) and appends the uid to hookOrder without
deduplication; addHookEnd never changes hookOrder, so the order reflects
start order regardless of when hook-end events arrive. The concrete conjuncts
replay the spec scenario (starts h1 then h2, ends h2 then h1) and a re-used
hook uid. -/
theorem C7_hook_order (d : Data) (hookUID : String) (now t2 : Int) (d2 : Data)
    (hend : d.addHookEnd hookUID t2 = JsResult.ok d2) :
    jmapGet (d.addHookStart hookUID now).hooks hookUID =
      some { start := now, endTime := none } ∧
    (d.addHookStart hookUID now).hookOrder = d.hookOrder ++ [hookUID] ∧
    d2.hookOrder = d.hookOrder ∧
    (((((Data.init 0).addHookStart "h1" 1).addHookStart "h2" 2).addHookEnd
          "h2" 3).state.addHookEnd "h1" 4).state.hookOrder = ["h1", "h2"] ∧
    jmapGet (((((Data.init 0).addHookStart "h1" 1).addHookStart "h2"
          2).addHookEnd "h2" 3).state.addHookEnd "h1" 4).state.hooks "h1" =
      some { start := 1, endTime := some 4 } ∧
    jmapGet (((((Data.init 0).addHookStart "h1" 1).addHookStart "h2"
          2).addHookEnd "h2" 3).state.addHookEnd "h1" 4).state.hooks "h2" =
      some { start := 2, endTime := some 3 } ∧
    jmapGet (((Data.init 0).addHookStart "h1" 1).addHookStart "h1" 2).hooks
        "h1" = some { start := 2, endTime := none } ∧
    (((Data.init 0).addHookStart "h1" 1).addHookStart "h1" 2).hookOrder =
      ["h1", "h1"] := by
  refine ⟨?_, ?_, ?_, by decide, by decide, by decide, by decide, by decide⟩
  · exact jmapGet_jmapSet_self d.hooks hookUID { start := now, endTime := none }
  · simp [Data.addHookStart]
  · unfold Data.addHookEnd at hend
    split at hend
    · exact absurd hend (by simp)
    · injection hend with h2
      subst h2
      rfl

/-- Witness for C7 at a record with one started hook. -/
theorem C7_hook_order_witness :
    ((Data.init 0).addHookStart "hk" 5).addHookEnd "hk" 9 =
      JsResult.ok { (Data.init 0).addHookStart "hk" 5 with
        hooks := [("hk", { start := 5, endTime := some 9 })] } ∧
    (jmapGet (((Data.init 0).addHookStart "hk" 5).addHookStart "hk" 6).hooks
        "hk" = some { start := 6, endTime := none } ∧
     (((Data.init 0).addHookStart "hk" 5).addHookStart "hk" 6).hookOrder =
       ((Data.init 0).addHookStart "hk" 5).hookOrder ++ ["hk"] ∧
     ({ (Data.init 0).addHookStart "hk" 5 with
         hooks := [("hk", { start := 5, endTime := some 9 })] } : Data).hookOrder =
       ((Data.init 0).addHookStart "hk" 5).hookOrder ∧
     (((((Data.init 0).addHookStart "h1" 1).addHookStart "h2" 2).addHookEnd
           "h2" 3).state.addHookEnd "h1" 4).state.hookOrder = ["h1", "h2"] ∧
     jmapGet (((((Data.init 0).addHookStart "h1" 1).addHookStart "h2"
           2).addHookEnd "h2" 3).state.addHookEnd "h1" 4).state.hooks "h1" =
       some { start := 1, endTime := some 4 } ∧
     jmapGet (((((Data.init 0).addHookStart "h1" 1).addHookStart "h2"
           2).addHookEnd "h2" 3).state.addHookEnd "h1" 4).state.hooks "h2" =
       some { start := 2, endTime := some 3 } ∧
     jmapGet (((Data.init 0).addHookStart "h1" 1).addHookStart "h1" 2).hooks
         "h1" = some { start := 2, endTime := none } ∧
     (((Data.init 0).addHookStart "h1" 1).addHookStart "h1" 2).hookOrder =
       ["h1", "h1"]) :=
  ⟨by decide,
   C7_hook_order ((Data.init 0).addHookStart "hk" 5) "hk" 6 9 _ (by decide)⟩

/-- C8: setEndTime succeeds on a Date argument and stores its timestamp as
the end of the record, and throws the InvalidArgument error on any non-Date
argument with the record unchanged; getDuration is absent while end is unset
and equals end minus start once end is set. -/
theorem C8_setEnd_and_duration (d dRun : Data) (t e : Int) (v : JsValue)
    (hv : v.isDate = false) (he : d.endTime = some e)
    (hn : dRun.endTime = none) :
    d.setEndTime (JsValue.date t) = JsResult.ok { d with endTime := some t } ∧
    d.setEndTime v = JsResult.exn "end must be an instanceof Date" d ∧
    dRun.getDuration = none ∧
    d.getDuration = some (e - d.start) := by
  refine ⟨rfl, ?_, ?_, ?_⟩
  · cases v <;> simp_all [JsValue.isDate, Data.setEndTime]
  · simp [Data.getDuration, hn]
  · simp [Data.getDuration, he]

/-- Witness for C8 at a concrete ended record, a concrete running record and
the non-Date argument 5. -/
theorem C8_setEnd_and_duration_witness :
    ((JsValue.numV 5).isDate = false ∧
     ({ Data.init 3 with endTime := some 10 } : Data).endTime = some 10 ∧
     (Data.init 3).endTime = none) ∧
    (({ Data.init 3 with endTime := some 10 } : Data).setEndTime
        (JsValue.date 12) =
       JsResult.ok { Data.init 3 with endTime := some 12 } ∧
     ({ Data.init 3 with endTime := some 10 } : Data).setEndTime
         (JsValue.numV 5) =
       JsResult.exn "end must be an instanceof Date"
         { Data.init 3 with endTime := some 10 } ∧
     (Data.init 3).getDuration = none ∧
     ({ Data.init 3 with endTime := some 10 } : Data).getDuration =
       some (10 - 3)) :=
  ⟨⟨by decide, by decide, by decide⟩,
   C8_setEnd_and_duration { Data.init 3 with endTime := some 10 }
     (Data.init 3) 12 10 (JsValue.numV 5) (by decide) (by decide) (by decide)⟩

/-- Every handler except the run-end handler leaves the recorded run-end
timestamp untouched (whether it returns or throws). -/
theorem stepState_runEnd_preserved (a : Aggregator) (e : Event)
    (h : e.isEndEv = false) : (stepState a e).runEnd = a.runEnd := by
  cases e <;> simp [Event.isEndEv] at h <;>
    simp only [stepState, step, Aggregator.onStart, Aggregator.onSuite,
      Aggregator.onTest, Aggregator.onSuiteEnd, Aggregator.onTestEnd,
      Aggregator.onHook, Aggregator.onHookEnd, Aggregator.onPass,
      Aggregator.onFail, Aggregator.onPending, Data.setEndTime,
      Data.setTerminalState, Data.addHookEnd, Data.addHookStart] <;>
    (repeat' split) <;> rfl

/-- Processing a sequence of events that contains no run-end event leaves the
recorded run-end timestamp unchanged. -/
theorem processEvents_runEnd_preserved (es : List Event) (a : Aggregator)
    (h : es.all (fun e => !e.isEndEv) = true) :
    (processEvents a es).runEnd = a.runEnd := by
  induction es generalizing a with
  | nil => rfl
  | cons e rest ih =>
      rw [List.all_cons, Bool.and_eq_true] at h
      have h1 : e.isEndEv = false := by
        rcases h with ⟨h1, _⟩
        simpa using h1
      calc (processEvents a (e :: rest)).runEnd
          = (processEvents (stepState a e) rest).runEnd := rfl
        _ = (stepState a e).runEnd := ih (stepState a e) h.2
        _ = a.runEnd := stepState_runEnd_preserved a e h1

/-- C4: starting from the fresh aggregator, getTotalDuration is absent after
any event sequence that contains no run-end event; on any state where both
run-end and run-start have been recorded it equals run-end minus run-start
exactly; and the run-end handler records its timestamp. -/
theorem C4_total_duration (es : List Event) (a : Aggregator) (e s now : Int)
    (hes : es.all (fun x => !x.isEndEv) = true)
    (he : a.runEnd = some e) (hs : a.runStart = some s) :
    (processEvents Aggregator.init es).getTotalDuration = none ∧
    a.getTotalDuration = some (JsNum.int (e - s)) ∧
    (a.onEnd now).runEnd = some now := by
  refine ⟨?_, ?_, rfl⟩
  · have hend : (processEvents Aggregator.init es).runEnd = none :=
      processEvents_runEnd_preserved es Aggregator.init hes
    simp [Aggregator.getTotalDuration, hend]
  · simp [Aggregator.getTotalDuration, he, hs]

/-- Witness for C4 at a short run (start, one suite, one test) and an
aggregator whose run ended at 10 having started at 3. -/
theorem C4_total_duration_witness :
    (([Event.start 3, Event.suite "s1" 4, Event.test "t1" 5]).all
        (fun x => !x.isEndEv) = true ∧
     ({ sampleAgg with runStart := some 3, runEnd := some 10 } :
        Aggregator).runEnd = some 10 ∧
     ({ sampleAgg with runStart := some 3, runEnd := some 10 } :
        Aggregator).runStart = some 3) ∧
    ((processEvents Aggregator.init
        [Event.start 3, Event.suite "s1" 4, Event.test "t1" 5]).getTotalDuration =
       none ∧
     ({ sampleAgg with runStart := some 3, runEnd := some 10 } :
        Aggregator).getTotalDuration = some (JsNum.int (10 - 3)) ∧
     (({ sampleAgg with runStart := some 3, runEnd := some 10 } :
        Aggregator).onEnd 11).runEnd = some 11) :=
  ⟨⟨by decide, by decide, by decide⟩,
   C4_total_duration [Event.start 3, Event.suite "s1" 4, Event.test "t1" 5]
     { sampleAgg with runStart := some 3, runEnd := some 10 } 10 3 11
     (by decide) (by decide) (by decide)⟩

/-- C9 counterexample: the claim that no value returned by getTestData or
getSuiteData gives the caller a handle through which Aggregator-internal
state can be mutated is false. Both getters return the very record object
stored in the respective map, so after test-start and pass for t1 (the
record reads as success) an external setTerminalState("error") call on the
record returned by getTestData succeeds and changes the aggregator (a
subsequent getTestData for t1 reads as error), and after suite-start for s1
the same external call on the record returned by getSuiteData succeeds and
changes the aggregator (a subsequent getSuiteData for s1 reads as error). -/
theorem C9_read_only_handles_counterexample :
    Except.map Data.getIsSuccess (passedAgg.getTestData "t1") =
      Except.ok true ∧
    (passedAgg.getTestDataThenSetTerminalState "t1"
        (JsValue.strV "error")).isOk = true ∧
    Except.map Data.getIsError
        (passedAggAfterExternalMutation.getTestData "t1") = Except.ok true ∧
    passedAggAfterExternalMutation ≠ passedAgg ∧
    Except.map Data.getIsError (suiteAgg.getSuiteData "s1") =
      Except.ok false ∧
    (suiteAgg.getSuiteDataThenSetTerminalState "s1"
        (JsValue.strV "error")).isOk = true ∧
    Except.map Data.getIsError
        (suiteAggAfterExternalMutation.getSuiteData "s1") = Except.ok true ∧
    suiteAggAfterExternalMutation ≠ suiteAgg := by
  refine ⟨by decide, by decide, by decide, by decide, by decide, by decide,
    by decide, by decide⟩

/-- C9 amended: getTestData and getSuiteData return the live internal record,
so for any uid present in the respective mapping an external
setTerminalState call with a valid state on the returned record succeeds and
overwrites the record stored in the aggregator, and later getTestData
(respectively getSuiteData) calls observe the mutation. -/
theorem C9_handles_are_mutable (a b : Aggregator) (uid suid : String)
    (d d2 : Data) (s : String)
    (hd : a.getTestData uid = Except.ok d)
    (hd2 : b.getSuiteData suid = Except.ok d2)
    (hs : s = ERROR ∨ s = SKIP ∨ s = SUCCESS) :
    a.getTestDataThenSetTerminalState uid (JsValue.strV s) =
      JsResult.ok { a with
        testsMap := jmapSet a.testsMap uid { d with terminalState := some s } } ∧
    ({ a with testsMap :=
        jmapSet a.testsMap uid { d with terminalState := some s } } :
      Aggregator).getTestData uid =
      Except.ok { d with terminalState := some s } ∧
    b.getSuiteDataThenSetTerminalState suid (JsValue.strV s) =
      JsResult.ok { b with
        suitesMap := jmapSet b.suitesMap suid { d2 with terminalState := some s } } ∧
    ({ b with suitesMap :=
        jmapSet b.suitesMap suid { d2 with terminalState := some s } } :
      Aggregator).getSuiteData suid =
      Except.ok { d2 with terminalState := some s } := by
  refine ⟨?_, ?_, ?_, ?_⟩
  · simp only [Aggregator.getTestDataThenSetTerminalState, hd,
      Data.setTerminalState]
    rw [if_pos hs]
  · unfold Aggregator.getTestData
    rw [jmapGet_jmapSet_self]
  · simp only [Aggregator.getSuiteDataThenSetTerminalState, hd2,
      Data.setTerminalState]
    rw [if_pos hs]
  · unfold Aggregator.getSuiteData
    rw [jmapGet_jmapSet_self]

/-- Witness for the amended C9 at `passedAgg` (uid t1), `suiteAgg` (uid s1)
and the state error. -/
theorem C9_handles_are_mutable_witness :
    (passedAgg.getTestData "t1" = Except.ok passedRecord ∧
     suiteAgg.getSuiteData "s1" = Except.ok (Data.init 0) ∧
     ("error" = ERROR ∨ "error" = SKIP ∨ "error" = SUCCESS)) ∧
    (passedAgg.getTestDataThenSetTerminalState "t1" (JsValue.strV "error") =
       JsResult.ok { passedAgg with testsMap := jmapSet passedAgg.testsMap "t1" { passedRecord with terminalState := some "error" } } ∧
     ({ passedAgg with testsMap := jmapSet passedAgg.testsMap "t1" { passedRecord with terminalState := some "error" } } : Aggregator).getTestData "t1" =
       Except.ok { passedRecord with terminalState := some "error" } ∧
     suiteAgg.getSuiteDataThenSetTerminalState "s1" (JsValue.strV "error") =
       JsResult.ok { suiteAgg with suitesMap := jmapSet suiteAgg.suitesMap "s1" { Data.init 0 with terminalState := some "error" } } ∧
     ({ suiteAgg with suitesMap := jmapSet suiteAgg.suitesMap "s1" { Data.init 0 with terminalState := some "error" } } : Aggregator).getSuiteData "s1" =
       Except.ok { Data.init 0 with terminalState := some "error" }) :=
  ⟨⟨by decide, by decide, by decide⟩,
   C9_handles_are_mutable passedAgg suiteAgg "t1" "s1" passedRecord
     (Data.init 0) "error" (by decide) (by decide) (by decide)⟩
